import Mathlib

/-!
Shallow embedding of the FarmerDirectWeb backend (src/backend) in Lean 4.

The embedded code:
  * `security.py` : `validate_password_strength`, `create_access_token`,
    `verify_token` (JWTs are modelled as records carrying their claims and
    the secret they were signed with; `jose.jwt.decode` checks the signature
    and the `exp` claim and raises on failure, which we model as `none`).
  * `main.py` : the grading function `analyze_produce_with_yolo`
    (lines 125-190), `get_current_user`, `register_user`, `initiate_chat`,
    `get_chat_messages`, `send_chat_message`, `get_all_listings`,
    `create_listing`, `check_chat_participation`.

Confidence scores are embedded as rationals (`ℚ`); times as integer Unix
seconds (`ℤ`); the SQL store as in-memory lists of records, with
`query(...).first()` embedded as `List.find?` and row insertion as append.
HTTP error responses are `(status, detail)` pairs in an `Except`.
-/

namespace FarmerDirect

/-- Python's round-half-to-even, as used by `f"{x:.0f}"` formatting. -/
def roundHalfEven (q : ℚ) : ℤ :=
  let f : ℤ := ⌊q⌋
  let frac : ℚ := q - f
  if frac < 1/2 then f
  else if 1/2 < frac then f + 1
  else if f % 2 = 0 then f else f + 1

/-- `f"{ratio*100:.0f}"` : percentage with zero decimal places. -/
def fmtPercent (ratio : ℚ) : String :=
  toString (roundHalfEven (ratio * 100))

/-! ## security.py -/

/-- `security.py` line 11: `ACCESS_TOKEN_EXPIRE_MINUTES = 60 * 24`. -/
def ACCESS_TOKEN_EXPIRE_MINUTES : ℤ := 60 * 24

/-- Claims carried by a JWT: `sub`, `role`, `id` (each absent or a string,
as `payload.get` may return `None`) and the `exp` timestamp in seconds. -/
structure TokenPayload where
  sub : Option String
  role : Option String
  id : Option String
  exp : ℤ
  deriving Repr, DecidableEq

/-- A signed token: its payload plus the secret it was signed with.
Verification against a secret succeeds only if the secrets agree,
modelling the HS256 signature check. -/
structure JwtToken where
  payload : TokenPayload
  secret : String
  deriving Repr, DecidableEq

/-- `security.create_access_token` (lines 29-34) applied to the payload
`{"sub": email, "role": role, "id": id}` used by the login endpoint:
copies the data and sets `exp = now + ACCESS_TOKEN_EXPIRE_MINUTES` minutes. -/
def create_access_token (secret : String) (now : ℤ)
    (email role id : String) : JwtToken :=
  { payload :=
      { sub := some email
        role := some role
        id := some id
        exp := now + ACCESS_TOKEN_EXPIRE_MINUTES * 60 }
    secret := secret }

/-- `security.verify_token` (lines 37-42): `jwt.decode` checks the HS256
signature and the `exp` claim (`jose` raises `ExpiredSignatureError` iff
`exp < now`); any `JWTError` is caught and `None` returned. -/
def verify_token (secret : String) (now : ℤ) (token : JwtToken) :
    Option TokenPayload :=
  if token.secret = secret ∧ now ≤ token.payload.exp then
    some token.payload
  else
    none

/-- `security.validate_password_strength` (lines 45-59). -/
def validate_password_strength (password : String) : Bool × String :=
  if password.length < 8 then
    (false, "Password must be at least 8 characters")
  else
    let has_upper := password.toList.any Char.isUpper
    let has_lower := password.toList.any Char.isLower
    let has_digit := password.toList.any Char.isDigit
    if !(has_upper && has_lower && has_digit) then
      (false, "Password must include uppercase, lowercase and a digit")
    else
      (true, "OK")

/-! ## main.py : grading -/

/-- The `{"grade": ..., "price_range": ..., "analysis": ...}` dict returned
by `analyze_produce_with_yolo`. -/
structure GradingResult where
  grade : String
  price_range : String
  analysis : String
  deriving Repr, DecidableEq

/-- `main.analyze_produce_with_yolo`, lines 142-175: the deterministic
post-processing of the detector's confidence scores into a grade. -/
def grade_from_confidences (confidence_scores : List ℚ) : GradingResult :=
  let total_objects := confidence_scores.length
  let defective_count :=
    (confidence_scores.filter (fun conf => conf < 1/2)).length
  if total_objects = 0 then
    { grade := "A"
      analysis := "High quality produce with no visible defects detected."
      price_range := "₹2000 - ₹2400 per quintal" }
  else
    let defect_ratio : ℚ := (defective_count : ℚ) / (total_objects : ℚ)
    let avg_confidence : ℚ :=
      if confidence_scores = [] then 4/5
      else confidence_scores.sum / (confidence_scores.length : ℚ)
    if defect_ratio < 1/5 ∧ avg_confidence > 7/10 then
      { grade := "A"
        analysis := "Premium quality produce. Minimal defects detected ("
          ++ fmtPercent defect_ratio ++ "% defective areas)."
        price_range := "₹2000 - ₹2400 per quintal" }
    else if defect_ratio < 1/2 ∧ avg_confidence > 1/2 then
      { grade := "B"
        analysis := "Good quality produce with some minor defects. Moderate defects detected ("
          ++ fmtPercent defect_ratio ++ "% defective areas)."
        price_range := "₹1500 - ₹1900 per quintal" }
    else
      { grade := "C"
        analysis := "Fair quality produce with notable defects. Significant defects detected ("
          ++ fmtPercent defect_ratio ++ "% defective areas)."
        price_range := "₹1000 - ₹1400 per quintal" }

/-- The upstream detection call (image conversion + YOLO inference +
box extraction, lines 131-152): either the list of confidence scores,
or an exception message. -/
abbrev DetectionOutcome := Except String (List ℚ)

/-- `main.analyze_produce_with_yolo` (lines 125-190): grade from the
detections, and on any raised exception `e` return the fixed Grade-B
fallback annotated with `str(e)[:50]` (lines 183-190). -/
def analyze_produce_with_yolo (outcome : DetectionOutcome) : GradingResult :=
  match outcome with
  | .ok confidence_scores => grade_from_confidences confidence_scores
  | .error e =>
      { grade := "B"
        price_range := "₹1500 - ₹1900 per quintal"
        analysis := "Automatic grading encountered an issue: "
          ++ e.take 50 ++ ". Manual review recommended." }

/-! ## models.py : the relational store -/

/-- `models.User` (models.py lines 6-14); the surrogate integer `id` is
managed by SQLAlchemy and never read by the endpoints, so it is dropped. -/
structure User where
  uuid : String
  full_name : String
  email : String
  password_hash : String
  role : String
  deriving Repr, DecidableEq

/-- `models.Listing` (models.py lines 16-31); `image_urls` is the raw
JSON text column. -/
structure Listing where
  uuid : String
  owner_email : String
  title : String
  quantity : ℚ
  quantity_unit : String
  harvest_date : String
  location : String
  image_urls : String
  ai_grade : String
  ai_price_range : String
  ai_analysis : String
  status : String
  deriving Repr, DecidableEq

/-- `models.ChatRoom` (models.py lines 33-41). -/
structure ChatRoom where
  uuid : String
  listing_id : String
  listing_title : String
  farmer_email : String
  buyer_email : String
  deriving Repr, DecidableEq

/-- `models.Message` (models.py lines 43-51); timestamps are Unix seconds. -/
structure Message where
  uuid : String
  chat_room_uuid : String
  sender_email : String
  message_text : String
  timestamp : ℤ
  deriving Repr, DecidableEq

/-- The SQLite store: one list per table, in insertion order. -/
structure DB where
  users : List User
  listings : List Listing
  chat_rooms : List ChatRoom
  messages : List Message
  deriving Repr, DecidableEq

/-- The `{"email", "role", "id"}` dict produced by `get_current_user`. -/
structure UserData where
  email : String
  role : String
  id : String
  deriving Repr, DecidableEq

/-- An `HTTPException`: status code and detail message. -/
abbrev HttpError := ℕ × String

/-- A handler outcome: an `HTTPException`, or a response together with the
state of the store after the handler's own writes (an error leaves the
store unchanged: on any exception the handler rolls back). -/
abbrev Handler (α : Type) := Except HttpError (α × DB)

/-! ## main.py : helpers and authentication -/

/-- `main.find_user_in_db` (lines 220-221):
`db.query(User).filter(User.email == email).first()`. -/
def find_user_in_db (db : DB) (email : String) : Option User :=
  db.users.find? (fun u => u.email == email)

/-- `main.find_listing_in_db` (lines 223-224). -/
def find_listing_in_db (db : DB) (listing_uuid : String) : Option Listing :=
  db.listings.find? (fun l => l.uuid == listing_uuid)

/-- `main.find_chat_room_in_db` (lines 226-227). -/
def find_chat_room_in_db (db : DB) (chat_uuid : String) : Option ChatRoom :=
  db.chat_rooms.find? (fun r => r.uuid == chat_uuid)

/-- Python truthiness of `payload.get(k)`: falsy iff `None` or `""`. -/
def pyFalsy : Option String → Bool
  | none => true
  | some s => s.isEmpty

/-- `main.get_current_user` (lines 236-255): verify the bearer token,
then reject a payload any of whose `sub`/`role`/`id` entries is falsy. -/
def get_current_user (secret : String) (now : ℤ) (token : JwtToken) :
    Except HttpError UserData :=
  match verify_token secret now token with
  | none => .error (401, "Invalid token")
  | some payload =>
      if pyFalsy payload.sub || pyFalsy payload.role || pyFalsy payload.id then
        .error (401, "Invalid token payload")
      else
        .ok { email := payload.sub.getD ""
              role := payload.role.getD ""
              id := payload.id.getD "" }

/-! ## main.py : registration -/

/-- The UTF-8 byte length `len(password.encode('utf-8'))`. -/
def utf8Len (s : String) : ℕ := s.utf8ByteSize

/-- `re.match(r'^[^@]+@[^@]+\.[^@]+$', email)`: the string splits as
`A ++ "@" ++ B ++ "." ++ C` with `A`, `B`, `C` nonempty and `@`-free.
Equivalently: exactly one `@`, something before it, and after it a `.`
that is neither immediately after the `@` nor last. -/
def email_matches (email : String) : Bool :=
  let cs := email.toList
  match cs.findIdx? (· == '@') with
  | none => false
  | some i =>
      let before := cs.take i
      let after := cs.drop (i + 1)
      !before.isEmpty && !(after.any (· == '@')) &&
        ((List.range after.length).any (fun j =>
          after.getD j ' ' == '.' && 0 < j && j + 1 < after.length))

/-- The `{"message", "email", "user_id"}` body returned on 201. -/
structure RegisterResponse where
  message : String
  email : String
  user_id : String
  deriving Repr, DecidableEq

/-- `main.register_user` (lines 261-296). `new_uuid` stands for the
freshly generated `uuid.uuid4()`; `security.hash_password` is an external
passlib call never inspected by any endpoint, stood in for by a tagged
string. -/
def register_user (fullName email password role : String)
    (new_uuid : String) (db : DB) : Handler RegisterResponse :=
  match find_user_in_db db email with
  | some _ => .error (409, "Email already registered")
  | none =>
      if utf8Len password > 72 then
        .error (422, "Password is too long (max 72 characters).")
      else if !email_matches email then
        .error (422, "Invalid email format")
      else
        match validate_password_strength password with
        | (false, msg) => .error (400, msg)
        | (true, _) =>
            let new_db_user : User :=
              { uuid := new_uuid
                full_name := fullName
                email := email
                password_hash := "<bcrypt>" ++ password
                role := role }
            .ok ({ message := "User registered successfully"
                   email := email
                   user_id := new_uuid },
                 { db with users := db.users ++ [new_db_user] })

/-! ## main.py : listings -/

/-- The `ListingCreate` request body (main.py lines 65-71). -/
structure ListingCreate where
  title : String
  quantity : ℚ
  quantity_unit : String
  harvest_date : String
  location : String
  image_urls : List String
  deriving Repr, DecidableEq

/-- The `ListingResponse` body (main.py lines 73-77). -/
structure ListingResponse extends ListingCreate where
  id : String
  owner_email : String
  status : String
  ai_grading : GradingResult
  deriving Repr, DecidableEq

/-- `json.dumps` of a list of strings, abstracted: all the endpoints
need of it is that it is some injection into the text column. -/
def json_dumps_list (urls : List String) : String :=
  "[" ++ String.intercalate "," (urls.map (fun u => "\"" ++ u ++ "\"")) ++ "]"

/-- `main.create_listing` (lines 353-422). The network fetch of the
first image plus the YOLO call is abstracted as `outcome`: `.error e`
models an exception raised inside the `try` block before
`analyze_produce_with_yolo` returned (e.g. `raise_for_status`);
`.ok det` models the fetch succeeding and the detector returning
`det` (on which `analyze_produce_with_yolo` never raises). -/
def create_listing (current_user : UserData)
    (listing_data : ListingCreate)
    (outcome : Except String DetectionOutcome)
    (new_uuid : String) (db : DB) : Handler ListingResponse :=
  if current_user.role ≠ "farmer" then
    .error (403, "Only farmers can create listings.")
  else if listing_data.image_urls.length < 3 then
    .error (422, "Please upload at least 3 images.")
  else
    match outcome with
    | .error e => .error (503, "The AI grading service failed. Error: " ++ e)
    | .ok det =>
        let ai_grading := analyze_produce_with_yolo det
        let new_db_listing : Listing :=
          { uuid := new_uuid
            owner_email := current_user.email
            title := listing_data.title
            quantity := listing_data.quantity
            quantity_unit := listing_data.quantity_unit
            harvest_date := listing_data.harvest_date
            location := listing_data.location
            image_urls := json_dumps_list listing_data.image_urls
            ai_grade := ai_grading.grade
            ai_price_range := ai_grading.price_range
            ai_analysis := ai_grading.analysis
            status := "active" }
        .ok ({ listing_data with
                 id := new_uuid
                 owner_email := current_user.email
                 status := "active"
                 ai_grading := ai_grading },
             { db with listings := db.listings ++ [new_db_listing] })

/-- One element of the `get_all_listings` response array. -/
structure ListingDict where
  id : String
  owner_email : String
  title : String
  quantity : ℚ
  quantity_unit : String
  harvest_date : String
  location : String
  image_urls : List String
  ai_grade : String
  ai_price_range : String
  ai_analysis : String
  status : String
  deriving Repr, DecidableEq

/-- The dictionary built for one row (main.py lines 434-454), given the
outcome of `json.loads(listing.image_urls)` (`none` = `JSONDecodeError`,
caught and replaced by `[]`). -/
def listing_to_dict (parsed : Option (List String)) (listing : Listing) :
    ListingDict :=
  { id := listing.uuid
    owner_email := listing.owner_email
    title := listing.title
    quantity := listing.quantity
    quantity_unit := listing.quantity_unit
    harvest_date := listing.harvest_date
    location := listing.location
    image_urls := parsed.getD []
    ai_grade := listing.ai_grade
    ai_price_range := listing.ai_price_range
    ai_analysis := listing.ai_analysis
    status := listing.status }

/-- `main.get_all_listings` (lines 424-458). `json_loads` abstracts
`json.loads` over the stored text, returning `none` exactly when that
call would raise `json.JSONDecodeError`. -/
def get_all_listings (json_loads : String → Option (List String))
    (db : DB) : List ListingDict :=
  (db.listings.filter (fun l => l.status == "active")).map
    (fun listing => listing_to_dict (json_loads listing.image_urls) listing)

/-! ## main.py : chat -/

/-- The `ChatRoomResponse` body (main.py lines 82-87). -/
structure ChatRoomResponse where
  chat_id : String
  listing_id : String
  listing_title : String
  farmer_email : String
  buyer_email : String
  deriving Repr, DecidableEq

/-- The `MessageResponse` body (main.py lines 92-97). -/
structure MessageResponse where
  message_id : String
  chat_id : String
  sender_email : String
  message_text : String
  timestamp : ℤ
  deriving Repr, DecidableEq

/-- `main.check_chat_participation` (lines 464-466). -/
def check_chat_participation (chat_room : ChatRoom) (user_email : String) :
    Bool :=
  user_email == chat_room.farmer_email || user_email == chat_room.buyer_email

/-- The response built from a room, used by both branches of
`initiate_chat` (lines 497-503 and 520-526). -/
def room_to_response (room : ChatRoom) : ChatRoomResponse :=
  { chat_id := room.uuid
    listing_id := room.listing_id
    listing_title := room.listing_title
    farmer_email := room.farmer_email
    buyer_email := room.buyer_email }

/-- `main.initiate_chat` (lines 468-530). `new_chat_uuid` stands for the
freshly generated `uuid.uuid4()` of the create branch. -/
def initiate_chat (current_user : UserData) (listing_id : String)
    (new_chat_uuid : String) (db : DB) : Handler ChatRoomResponse :=
  if current_user.role ≠ "buyer" then
    .error (403, "Only buyers can initiate chats.")
  else
    match find_listing_in_db db listing_id with
    | none => .error (404, "Listing not found.")
    | some listing =>
        let farmer_email := listing.owner_email
        let listing_title := listing.title
        let buyer_email := current_user.email
        if farmer_email = buyer_email then
          .error (400, "You cannot start a chat on your own listing.")
        else
          match db.chat_rooms.find? (fun r =>
              r.listing_id == listing_id && r.buyer_email == buyer_email) with
          | some existing_room =>
              .ok (room_to_response existing_room, db)
          | none =>
              let new_room : ChatRoom :=
                { uuid := new_chat_uuid
                  listing_id := listing_id
                  listing_title := listing_title
                  farmer_email := farmer_email
                  buyer_email := buyer_email }
              .ok (room_to_response new_room,
                   { db with chat_rooms := db.chat_rooms ++ [new_room] })

/-- `main.get_user_conversations` (lines 532-557). -/
def get_user_conversations (current_user : UserData) (db : DB) :
    List ChatRoomResponse :=
  (db.chat_rooms.filter (fun r =>
    r.farmer_email == current_user.email ||
      r.buyer_email == current_user.email)).map room_to_response

/-- `ORDER BY timestamp ASC` over the rows of one room: a stable merge
sort by timestamp (SQLite preserves insertion order among equal keys
for this append-only table). -/
def sort_by_timestamp (msgs : List Message) : List Message :=
  msgs.mergeSort (fun a b => a.timestamp ≤ b.timestamp)

/-- `main.get_chat_messages` (lines 559-590): participation-gated read. -/
def get_chat_messages (current_user : UserData) (chat_id : String)
    (db : DB) : Handler (List MessageResponse) :=
  match find_chat_room_in_db db chat_id with
  | none => .error (404, "Chat room not found.")
  | some chat_room =>
      if !check_chat_participation chat_room current_user.email then
        .error (403, "You are not authorized to view this chat.")
      else
        let messages :=
          sort_by_timestamp
            (db.messages.filter (fun m => m.chat_room_uuid == chat_id))
        .ok (messages.map (fun msg =>
              { message_id := msg.uuid
                chat_id := msg.chat_room_uuid
                sender_email := msg.sender_email
                message_text := msg.message_text
                timestamp := msg.timestamp }),
             db)

/-- `main.send_chat_message` (lines 592-629): participation-gated write.
`new_uuid` stands for `uuid.uuid4()` and `now` for
`datetime.now(timezone.utc)`. -/
def send_chat_message (current_user : UserData) (chat_id : String)
    (message_text : String) (new_uuid : String) (now : ℤ) (db : DB) :
    Handler MessageResponse :=
  match find_chat_room_in_db db chat_id with
  | none => .error (404, "Chat room not found.")
  | some chat_room =>
      if !check_chat_participation chat_room current_user.email then
        .error (403, "You are not authorized to send messages to this chat.")
      else
        let new_msg : Message :=
          { uuid := new_uuid
            chat_room_uuid := chat_id
            sender_email := current_user.email
            message_text := message_text
            timestamp := now }
        .ok ({ message_id := new_msg.uuid
               chat_id := new_msg.chat_room_uuid
               sender_email := new_msg.sender_email
               message_text := new_msg.message_text
               timestamp := new_msg.timestamp },
             { db with messages := db.messages ++ [new_msg] })

/-! ## Theorems -/

/-- C1: the grading decision table. The empty detection list yields Grade A
with the fixed price band and the no-defects analysis; otherwise, with
`ratio` = (count of confidences < 0.5) / n and `avgConf` = mean of all
confidences, the result is Grade A (band 1) when `ratio < 0.2 ∧ avgConf > 0.7`,
else Grade B (band 2) when `ratio < 0.5 ∧ avgConf > 0.5`, else Grade C
(band 3), in that order; and `[0.9, 0.9, 0.9, 0.1]` yields Grade B. -/
theorem C1_grading_decision_table :
    (grade_from_confidences [] =
      { grade := "A"
        price_range := "₹2000 - ₹2400 per quintal"
        analysis := "High quality produce with no visible defects detected." }) ∧
    (∀ detections : List ℚ, detections ≠ [] →
      (((grade_from_confidences detections).grade,
        (grade_from_confidences detections).price_range) =
        (let ratio : ℚ :=
          ((detections.filter (fun c => c < 1/2)).length : ℚ) /
            (detections.length : ℚ)
         let avgConf : ℚ := detections.sum / (detections.length : ℚ)
         if ratio < 1/5 ∧ avgConf > 7/10 then
           ("A", "₹2000 - ₹2400 per quintal")
         else if ratio < 1/2 ∧ avgConf > 1/2 then
           ("B", "₹1500 - ₹1900 per quintal")
         else
           ("C", "₹1000 - ₹1400 per quintal")))) ∧
    (grade_from_confidences [9/10, 9/10, 9/10, 1/10]).grade = "B" := by
  refine ⟨rfl, ?_, ?_⟩
  · intro detections hne
    have h0 : ¬ detections.length = 0 := fun h => hne (List.length_eq_zero.mp h)
    unfold grade_from_confidences
    simp only [if_neg h0, if_neg hne]
    split_ifs <;> rfl
  · norm_num [grade_from_confidences, List.filter]
    rw [if_neg (by simp : ¬([(9:ℚ)/10, 9/10, 9/10, 1/10] = []))]
    norm_num

/-- C1 witness: the nonempty-list conjunct evaluated at `[0.9, 0.9, 0.9, 0.1]`,
where the second rule fires. -/
theorem C1_grading_decision_table_witness :
    ([(9:ℚ)/10, 9/10, 9/10, 1/10] ≠ ([] : List ℚ)) ∧
    (((grade_from_confidences [9/10, 9/10, 9/10, 1/10]).grade,
      (grade_from_confidences [9/10, 9/10, 9/10, 1/10]).price_range) =
      (let ratio : ℚ :=
        ((([(9:ℚ)/10, 9/10, 9/10, 1/10].filter (fun c => c < 1/2)).length : ℚ) /
          (([(9:ℚ)/10, 9/10, 9/10, 1/10].length : ℚ)))
       let avgConf : ℚ :=
         [(9:ℚ)/10, 9/10, 9/10, 1/10].sum / ([(9:ℚ)/10, 9/10, 9/10, 1/10].length : ℚ)
       if ratio < 1/5 ∧ avgConf > 7/10 then
         ("A", "₹2000 - ₹2400 per quintal")
       else if ratio < 1/2 ∧ avgConf > 1/2 then
         ("B", "₹1500 - ₹1900 per quintal")
       else
         ("C", "₹1000 - ₹1400 per quintal"))) :=
  ⟨by simp,
   C1_grading_decision_table.2.1 [9/10, 9/10, 9/10, 1/10] (by simp)⟩

/-- C2: `validate_password_strength p` succeeds iff `p` has length ≥ 8 and
contains an uppercase letter, a lowercase letter and a digit; a too-short
password short-circuits with the length message, a long-enough password
missing a class gets the combined message; "Pass1234" passes, "PASSWORD1"
fails, "" fails with the length message. -/
theorem C2_password_policy :
    (∀ p : String,
      ((validate_password_strength p).1 = true ↔
        (8 ≤ p.length ∧ p.toList.any Char.isUpper ∧
          p.toList.any Char.isLower ∧ p.toList.any Char.isDigit)) ∧
      (p.length < 8 →
        (validate_password_strength p).2 =
          "Password must be at least 8 characters") ∧
      (8 ≤ p.length →
        ¬ (p.toList.any Char.isUpper ∧ p.toList.any Char.isLower ∧
            p.toList.any Char.isDigit) →
        (validate_password_strength p).2 =
          "Password must include uppercase, lowercase and a digit")) ∧
    (validate_password_strength "Pass1234").1 = true ∧
    (validate_password_strength "PASSWORD1").1 = false ∧
    validate_password_strength "" =
      (false, "Password must be at least 8 characters") := by
  refine ⟨?_, by decide, by decide, by decide⟩
  intro p
  unfold validate_password_strength
  by_cases hlen : p.length < 8
  · rw [if_pos hlen]
    exact ⟨⟨fun h => absurd h (by decide), fun h => absurd h.1 (by omega)⟩,
           fun _ => rfl, fun h8 _ => absurd h8 (by omega)⟩
  · rw [if_neg hlen]
    have h8 : 8 ≤ p.length := by omega
    cases hb : (p.toList.any Char.isUpper && p.toList.any Char.isLower &&
        p.toList.any Char.isDigit) with
    | true =>
        have h1 := (Bool.and_eq_true _ _).mp hb
        have h2 := (Bool.and_eq_true _ _).mp h1.1
        simp only [hb, Bool.not_true]
        exact ⟨⟨fun _ => ⟨h8, h2.1, h2.2, h1.2⟩, fun _ => rfl⟩,
               fun hlt => absurd hlt hlen,
               fun _ hn => absurd ⟨h2.1, h2.2, h1.2⟩ hn⟩
    | false =>
        have hnot : ¬(p.toList.any Char.isUpper = true ∧
            p.toList.any Char.isLower = true ∧
            p.toList.any Char.isDigit = true) := by
          rintro ⟨hu, hl, hd⟩
          rw [hu, hl, hd] at hb
          exact absurd hb (by decide)
        simp only [hb, Bool.not_false]
        exact ⟨⟨fun h => absurd h (by decide),
                fun h => absurd ⟨h.2.1, h.2.2.1, h.2.2.2⟩ hnot⟩,
               fun hlt => absurd hlt hlen,
               fun _ _ => rfl⟩

/-- C2 witness: the length-message conjunct at "short", the combined-message
conjunct at "password1", and the iff at "Pass1234". -/
theorem C2_password_policy_witness :
    ("short" : String).length < 8 ∧
    (validate_password_strength "short").2 =
      "Password must be at least 8 characters" ∧
    (validate_password_strength "password1").2 =
      "Password must include uppercase, lowercase and a digit" :=
  ⟨by decide,
   (C2_password_policy.1 "short").2.1 (by decide),
   (C2_password_policy.1 "password1").2.2 (by decide) (by decide)⟩

/-- C4: the grading function never throws past its boundary: on a raised
detector-side exception `e` it returns the fixed Grade B, band-2 fallback
with the error message truncated to 50 characters, and on a returned
detection list it returns the deterministic grading of that list — so the
caller always receives a `GradingResult`. -/
theorem C4_grading_fallback :
    (∀ e : String,
      analyze_produce_with_yolo (.error e) =
        { grade := "B"
          price_range := "₹1500 - ₹1900 per quintal"
          analysis := "Automatic grading encountered an issue: "
            ++ e.take 50 ++ ". Manual review recommended." }) ∧
    (∀ det : List ℚ,
      analyze_produce_with_yolo (.ok det) = grade_from_confidences det) :=
  ⟨fun _ => rfl, fun _ => rfl⟩

/-- C3: round-trip of the token service. A token issued at time `t` for
`(email, role, id)` verifies, at any time strictly before `t + 24` hours,
to exactly the issued `{email, role, id}` (with expiry `t + 24` hours);
at any time strictly after `t + 24` hours verification returns `none`
(never raising). -/
theorem C3_token_roundtrip (secret : String) (t now : ℤ)
    (email role id : String) :
    (now < t + 24 * 60 * 60 →
      verify_token secret now (create_access_token secret t email role id) =
        some { sub := some email, role := some role, id := some id,
               exp := t + 24 * 60 * 60 }) ∧
    (t + 24 * 60 * 60 < now →
      verify_token secret now (create_access_token secret t email role id) =
        none) := by
  unfold verify_token create_access_token ACCESS_TOKEN_EXPIRE_MINUTES
  constructor
  · intro h
    rw [if_pos ⟨rfl, (by omega : now ≤ t + 60 * 24 * 60)⟩]
    norm_num
  · intro h
    rw [if_neg]
    rintro ⟨-, hle⟩
    have hle' : now ≤ t + 60 * 24 * 60 := hle
    omega

/-- C3 witness: issuance at `t = 0`, one check at `now = 1000` (within the
24-hour window) and one at `now = 100000` (past it). -/
theorem C3_token_roundtrip_witness :
    ((1000 : ℤ) < 0 + 24 * 60 * 60 ∧
      verify_token "s" 1000 (create_access_token "s" 0 "a@b.c" "farmer" "U1") =
        some { sub := some "a@b.c", role := some "farmer", id := some "U1",
               exp := 0 + 24 * 60 * 60 }) ∧
    ((0 : ℤ) + 24 * 60 * 60 < 100000 ∧
      verify_token "s" 100000 (create_access_token "s" 0 "a@b.c" "farmer" "U1") =
        none) :=
  ⟨⟨by norm_num,
    (C3_token_roundtrip "s" 0 1000 "a@b.c" "farmer" "U1").1 (by norm_num)⟩,
   ⟨by norm_num,
    (C3_token_roundtrip "s" 0 100000 "a@b.c" "farmer" "U1").2 (by norm_num)⟩⟩

/-- C8: a structurally valid, unexpired token whose payload lacks any of
`sub` (email), `role` or `id` is rejected by the authentication step with
401 "Invalid token payload" rather than accepted. -/
theorem C8_missing_claims_rejected (secret : String) (now : ℤ)
    (token : JwtToken)
    (hvalid : (verify_token secret now token).isSome = true)
    (hmissing : token.payload.sub = none ∨ token.payload.role = none ∨
      token.payload.id = none) :
    get_current_user secret now token = .error (401, "Invalid token payload") := by
  have hc : token.secret = secret ∧ now ≤ token.payload.exp := by
    by_contra hc
    unfold verify_token at hvalid
    rw [if_neg hc] at hvalid
    exact absurd hvalid (by decide)
  have hv : verify_token secret now token = some token.payload := by
    unfold verify_token
    rw [if_pos hc]
  unfold get_current_user
  rw [hv]
  have hf : (pyFalsy token.payload.sub || pyFalsy token.payload.role ||
      pyFalsy token.payload.id) = true := by
    rcases hmissing with h | h | h <;> simp [pyFalsy, h]
  dsimp only
  rw [if_pos hf]

/-- C8 witness: an unexpired token signed with the checked secret whose
payload has no `role` claim. -/
theorem C8_missing_claims_rejected_witness :
    (verify_token "s" 0
      ⟨{ sub := some "a@b.c", role := none, id := some "U1", exp := 100 }, "s"⟩).isSome
        = true ∧
    get_current_user "s" 0
      ⟨{ sub := some "a@b.c", role := none, id := some "U1", exp := 100 }, "s"⟩ =
        .error (401, "Invalid token payload") :=
  ⟨by simp [verify_token],
   C8_missing_claims_rejected "s" 0
     ⟨{ sub := some "a@b.c", role := none, id := some "U1", exp := 100 }, "s"⟩
     (by simp [verify_token]) (.inr (.inl rfl))⟩

/-- C5: chat initiation is idempotent on the (listing, buyer) key. If one
call returns room response `r1` leaving store `db1`, a second call by the
same buyer for the same listing (whatever fresh uuid it draws) returns the
identical response and leaves the store unchanged: the existing room is
returned and no new room is created. -/
theorem C5_initiate_chat_idempotent (db db1 : DB) (current_user : UserData)
    (listing_id new_uuid1 new_uuid2 : String) (r1 : ChatRoomResponse)
    (h : initiate_chat current_user listing_id new_uuid1 db = .ok (r1, db1)) :
    initiate_chat current_user listing_id new_uuid2 db1 = .ok (r1, db1) := by
  unfold initiate_chat at h ⊢
  by_cases hrole : current_user.role ≠ "buyer"
  · rw [if_pos hrole] at h
    exact absurd h (by simp)
  · rw [if_neg hrole] at h ⊢
    cases hfind : find_listing_in_db db listing_id with
    | none => rw [hfind] at h; exact absurd h (by simp)
    | some listing =>
        rw [hfind] at h
        dsimp only at h
        by_cases hself : listing.owner_email = current_user.email
        · rw [if_pos hself] at h; exact absurd h (by simp)
        · rw [if_neg hself] at h
          cases hroom : db.chat_rooms.find? (fun r =>
              r.listing_id == listing_id &&
                r.buyer_email == current_user.email) with
          | some room =>
              rw [hroom] at h
              simp only [Except.ok.injEq, Prod.mk.injEq] at h
              obtain ⟨hr, hdb⟩ := h
              subst hdb
              rw [hfind]
              dsimp only
              rw [if_neg hself, hroom]
              dsimp only
              rw [hr]
          | none =>
              rw [hroom] at h
              simp only [Except.ok.injEq, Prod.mk.injEq] at h
              obtain ⟨hr, hdb⟩ := h
              subst hdb
              set nr : ChatRoom :=
                { uuid := new_uuid1, listing_id := listing_id,
                  listing_title := listing.title,
                  farmer_email := listing.owner_email,
                  buyer_email := current_user.email } with hnr
              have hfind1 : find_listing_in_db
                  { db with chat_rooms := db.chat_rooms ++ [nr] } listing_id =
                  some listing := hfind
              rw [hfind1]
              dsimp only
              rw [if_neg hself]
              have hfind2 : (db.chat_rooms ++ [nr]).find?
                  (fun r => r.listing_id == listing_id &&
                    r.buyer_email == current_user.email) = some nr := by
                rw [List.find?_append, hroom]
                simp [List.find?, hnr]
              rw [hfind2]
              dsimp only
              rw [hr]

/-! ### Sample data for the witnesses -/

/-- A persisted sample listing owned by `farmer@x` (its `image_urls`
column deliberately holds text that is not JSON). -/
def sampleListing : Listing :=
  { uuid := "L1", owner_email := "farmer@x", title := "Tomatoes"
    quantity := 1, quantity_unit := "kg", harvest_date := "2024-01-01"
    location := "Pune", image_urls := "notjson", ai_grade := "A"
    ai_price_range := "p", ai_analysis := "a", status := "active" }

/-- A sample chat room between `farmer@x` and `buyer@x`. -/
def sampleRoom : ChatRoom :=
  { uuid := "R1", listing_id := "L1", listing_title := "Tomatoes"
    farmer_email := "farmer@x", buyer_email := "buyer@x" }

/-- A persisted sample user record. -/
def sampleUser : User :=
  { uuid := "U1", full_name := "Alice", email := "a@b.c"
    password_hash := "h", role := "farmer" }

/-- C6: a caller whose email matches neither participant of an existing
room is Forbidden on both the read path and the write path, whatever the
caller's role; both paths gate on the same `check_chat_participation`,
which evaluates to `false` for such a caller. -/
theorem C6_nonparticipant_forbidden (db : DB) (current_user : UserData)
    (chat_id : String) (room : ChatRoom)
    (hroom : find_chat_room_in_db db chat_id = some room)
    (h1 : current_user.email ≠ room.farmer_email)
    (h2 : current_user.email ≠ room.buyer_email)
    (message_text new_uuid : String) (now : ℤ) :
    check_chat_participation room current_user.email = false ∧
    get_chat_messages current_user chat_id db =
      .error (403, "You are not authorized to view this chat.") ∧
    send_chat_message current_user chat_id message_text new_uuid now db =
      .error (403, "You are not authorized to send messages to this chat.") := by
  have hp : check_chat_participation room current_user.email = false := by
    unfold check_chat_participation
    simp [h1, h2]
  refine ⟨hp, ?_, ?_⟩
  · unfold get_chat_messages
    rw [hroom]
    dsimp only
    rw [hp]
    rfl
  · unfold send_chat_message
    rw [hroom]
    dsimp only
    rw [hp]
    rfl

/-- C6 witness: `other@x`, who is neither `farmer@x` nor `buyer@x`, is
rejected on both paths of the sample room, here with role "farmer". -/
theorem C6_nonparticipant_forbidden_witness :
    check_chat_participation sampleRoom "other@x" = false ∧
    get_chat_messages ⟨"other@x", "farmer", "U9"⟩ "R1" ⟨[], [], [sampleRoom], []⟩ =
      .error (403, "You are not authorized to view this chat.") ∧
    send_chat_message ⟨"other@x", "farmer", "U9"⟩ "R1" "hi" "M1" 5
        ⟨[], [], [sampleRoom], []⟩ =
      .error (403, "You are not authorized to send messages to this chat.") :=
  C6_nonparticipant_forbidden ⟨[], [], [sampleRoom], []⟩ ⟨"other@x", "farmer", "U9"⟩
    "R1" sampleRoom rfl (by decide) (by decide) "hi" "M1" 5

/-- C7: registration with an email that already exists in the store fails
with 409 Conflict whatever the other fields hold — the duplicate check runs
before the password-length, email-format and strength checks, so even a
weak or oversized password reaches the same 409 — and the error leaves the
store untouched (no user row is written). -/
theorem C7_duplicate_email_conflict (db : DB)
    (fullName email password role new_uuid : String) (u : User)
    (hu : u ∈ db.users) (he : u.email = email) :
    register_user fullName email password role new_uuid db =
      .error (409, "Email already registered") := by
  have hs : (db.users.find? (fun v => v.email == email)).isSome = true :=
    List.find?_isSome.mpr ⟨u, hu, by simp [he]⟩
  obtain ⟨v, hv⟩ := Option.isSome_iff_exists.mp hs
  unfold register_user find_user_in_db
  rw [hv]

/-- C7 witness: `a@b.c` is taken by `sampleUser`; a second registration
with that email and the weak one-character password "x" gets 409. -/
theorem C7_duplicate_email_conflict_witness :
    register_user "Bob" "a@b.c" "x" "buyer" "U2" ⟨[sampleUser], [], [], []⟩ =
      .error (409, "Email already registered") :=
  C7_duplicate_email_conflict ⟨[sampleUser], [], [], []⟩ "Bob" "a@b.c" "x" "buyer"
    "U2" sampleUser (by simp) rfl

/-- C5 witness: on a store holding `sampleListing` and no rooms, a first
initiation by `buyer@x` creates room "R1"; the theorem applied to that
first call shows the second call (drawing "R2") returns the same room id
"R1" and leaves the store unchanged. -/
theorem C5_initiate_chat_idempotent_witness :
    initiate_chat ⟨"buyer@x", "buyer", "U2"⟩ "L1" "R2"
        ⟨[], [sampleListing], [sampleRoom], []⟩ =
      .ok (⟨"R1", "L1", "Tomatoes", "farmer@x", "buyer@x"⟩,
           ⟨[], [sampleListing], [sampleRoom], []⟩) :=
  C5_initiate_chat_idempotent ⟨[], [sampleListing], [], []⟩
    ⟨[], [sampleListing], [sampleRoom], []⟩ ⟨"buyer@x", "buyer", "U2"⟩
    "L1" "R1" "R2" ⟨"R1", "L1", "Tomatoes", "farmer@x", "buyer@x"⟩ rfl

/-- C9 counterexample: registration never validates the role field, so a
register call with role "admin" succeeds and persists a user whose role is
neither "farmer" nor "buyer", refuting the claimed invariant. -/
theorem C9_role_counterexample :
    register_user "Eve" "eve@example.com" "Password1" "admin" "U1"
        ⟨[], [], [], []⟩ =
      .ok (⟨"User registered successfully", "eve@example.com", "U1"⟩,
           ⟨[⟨"U1", "Eve", "eve@example.com", "<bcrypt>Password1", "admin"⟩],
            [], [], []⟩) ∧
    ¬ ("admin" = "farmer" ∨ "admin" = "buyer") :=
  ⟨rfl, by decide⟩

/-- C9 amended: a successfully persisted user's role is exactly the role
string supplied in the request (the code does not restrict it to
{farmer, buyer}), and no other operation in scope ever changes the users
table: listing creation, chat initiation and the message read/write paths
all leave `db.users` untouched. -/
theorem C9_role_stored_verbatim_and_never_changed :
    (∀ fullName email password role new_uuid db resp db',
      register_user fullName email password role new_uuid db =
          .ok (resp, db') →
        db'.users.map User.role = db.users.map User.role ++ [role]) ∧
    (∀ current_user listing_data outcome new_uuid db resp db',
      create_listing current_user listing_data outcome new_uuid db =
          .ok (resp, db') →
        db'.users = db.users) ∧
    (∀ current_user listing_id new_uuid db resp db',
      initiate_chat current_user listing_id new_uuid db = .ok (resp, db') →
        db'.users = db.users) ∧
    (∀ current_user chat_id db resp db',
      get_chat_messages current_user chat_id db = .ok (resp, db') →
        db'.users = db.users) ∧
    (∀ current_user chat_id text new_uuid now db resp db',
      send_chat_message current_user chat_id text new_uuid now db =
          .ok (resp, db') →
        db'.users = db.users) := by
  refine ⟨?_, ?_, ?_, ?_, ?_⟩
  · intro fullName email password role new_uuid db resp db' h
    unfold register_user at h
    split at h
    · simp at h
    · split at h
      · simp at h
      · split at h
        · simp at h
        · split at h
          · simp at h
          · simp only [Except.ok.injEq, Prod.mk.injEq] at h
            obtain ⟨-, hdb⟩ := h
            subst hdb
            simp
  · intro current_user listing_data outcome new_uuid db resp db' h
    unfold create_listing at h
    split at h
    · simp at h
    · split at h
      · simp at h
      · split at h
        · simp at h
        · simp only [Except.ok.injEq, Prod.mk.injEq] at h
          obtain ⟨-, hdb⟩ := h
          subst hdb
          rfl
  · intro current_user listing_id new_uuid db resp db' h
    unfold initiate_chat at h
    split at h
    · simp at h
    · split at h
      · simp at h
      · dsimp only at h
        split at h
        · simp at h
        · split at h
          · simp only [Except.ok.injEq, Prod.mk.injEq] at h
            obtain ⟨-, hdb⟩ := h
            subst hdb
            rfl
          · simp only [Except.ok.injEq, Prod.mk.injEq] at h
            obtain ⟨-, hdb⟩ := h
            subst hdb
            rfl
  · intro current_user chat_id db resp db' h
    unfold get_chat_messages at h
    split at h
    · simp at h
    · split at h
      · simp at h
      · simp only [Except.ok.injEq, Prod.mk.injEq] at h
        obtain ⟨-, hdb⟩ := h
        subst hdb
        rfl
  · intro current_user chat_id text new_uuid now db resp db' h
    unfold send_chat_message at h
    split at h
    · simp at h
    · split at h
      · simp at h
      · simp only [Except.ok.injEq, Prod.mk.injEq] at h
        obtain ⟨-, hdb⟩ := h
        subst hdb
        rfl

/-- C9 witness: the register conjunct applied to the "admin" registration
on an empty store. -/
theorem C9_role_stored_verbatim_witness :
    (⟨[⟨"U1", "Eve", "eve@example.com", "<bcrypt>Password1", "admin"⟩],
      [], [], []⟩ : DB).users.map User.role =
      (⟨[], [], [], []⟩ : DB).users.map User.role ++ ["admin"] :=
  C9_role_stored_verbatim_and_never_changed.1 "Eve" "eve@example.com"
    "Password1" "admin" "U1" ⟨[], [], [], []⟩
    ⟨"User registered successfully", "eve@example.com", "U1"⟩
    ⟨[⟨"U1", "Eve", "eve@example.com", "<bcrypt>Password1", "admin"⟩],
     [], [], []⟩ rfl

/-- C10: an active listing whose stored `image_urls` text is not valid
JSON does not make the list-listings operation fail: its row is returned
with `image_urls = []` and every other field copied intact, and every
active listing (whatever its stored text) contributes its row. -/
theorem C10_invalid_image_json_tolerated
    (json_loads : String → Option (List String)) (db : DB)
    (listing : Listing) (hmem : listing ∈ db.listings)
    (hact : listing.status = "active")
    (hbad : json_loads listing.image_urls = none) :
    ({ id := listing.uuid, owner_email := listing.owner_email
       title := listing.title, quantity := listing.quantity
       quantity_unit := listing.quantity_unit
       harvest_date := listing.harvest_date, location := listing.location
       image_urls := [], ai_grade := listing.ai_grade
       ai_price_range := listing.ai_price_range
       ai_analysis := listing.ai_analysis
       status := listing.status } : ListingDict)
      ∈ get_all_listings json_loads db ∧
    (∀ l ∈ db.listings, l.status = "active" →
      listing_to_dict (json_loads l.image_urls) l ∈
        get_all_listings json_loads db) := by
  constructor
  · have h1 : listing ∈ db.listings.filter (fun l => l.status == "active") :=
      List.mem_filter.mpr ⟨hmem, by simp [hact]⟩
    have h2 := List.mem_map_of_mem
      (fun l => listing_to_dict (json_loads l.image_urls) l) h1
    have h3 : listing_to_dict (json_loads listing.image_urls) listing =
        { id := listing.uuid, owner_email := listing.owner_email
          title := listing.title, quantity := listing.quantity
          quantity_unit := listing.quantity_unit
          harvest_date := listing.harvest_date, location := listing.location
          image_urls := [], ai_grade := listing.ai_grade
          ai_price_range := listing.ai_price_range
          ai_analysis := listing.ai_analysis
          status := listing.status } := by
      rw [hbad]
      rfl
    unfold get_all_listings
    rw [← h3]
    exact h2
  · intro l hl hla
    have h1 : l ∈ db.listings.filter (fun x => x.status == "active") :=
      List.mem_filter.mpr ⟨hl, by simp [hla]⟩
    exact List.mem_map_of_mem
      (fun x => listing_to_dict (json_loads x.image_urls) x) h1

/-- C10 witness: `sampleListing` stores the non-JSON text "notjson"; with
a parser that rejects it the listing still appears, with empty images. -/
theorem C10_invalid_image_json_tolerated_witness :
    ({ id := "L1", owner_email := "farmer@x", title := "Tomatoes"
       quantity := 1, quantity_unit := "kg", harvest_date := "2024-01-01"
       location := "Pune", image_urls := [], ai_grade := "A"
       ai_price_range := "p", ai_analysis := "a"
       status := "active" } : ListingDict)
      ∈ get_all_listings (fun _ => none) ⟨[], [sampleListing], [], []⟩ :=
  (C10_invalid_image_json_tolerated (fun _ => none)
    ⟨[], [sampleListing], [], []⟩ sampleListing (by simp) rfl rfl).1

end FarmerDirect
